import Mathlib

set_option autoImplicit false

/-
Verification development for the stmharry monorepo database/result core.
Each Python module is shallowly embedded as Lean definitions:
  * stmharry/results.py            -> namespace Rust
  * stmharry/database/core.py      -> namespace DBCore
  * stmharry/database/pypika_dialects.py -> namespaces PQ (value-level builder
    state, as manipulated by each decorated builder call) and RefPQ (reference
    level, modelling Python list aliasing for copy semantics)
  * stmharry/database/stores.py    -> namespace Stores
External library behaviour (pypika term rendering, the sqlite engine) is
modelled at its interface: a pypika term is represented by the SQL string its
get_sql call returns.
-/

/-- Decidable equality for Except values, used to evaluate the embedded
fallible operations on concrete inputs. -/
instance {ε α : Type} [DecidableEq ε] [DecidableEq α] : DecidableEq (Except ε α) := fun x y =>
  match x, y with
  | .error e, .error e' =>
      if h : e = e' then .isTrue (by rw [h])
      else .isFalse (fun hc => by injection hc; exact h (by assumption))
  | .error _, .ok _ => .isFalse (fun hc => by cases hc)
  | .ok _, .error _ => .isFalse (fun hc => by cases hc)
  | .ok a, .ok a' =>
      if h : a = a' then .isTrue (by rw [h])
      else .isFalse (fun hc => by injection hc; exact h (by assumption))

namespace Rust

/-- Embedding of the two-variant result container of results.py:
classes Ok (holding value) and Err (holding err). -/
inductive Result (T : Type) (E : Type) where
  | Ok (value : T) : Result T E
  | Err (err : E) : Result T E
deriving Repr, DecidableEq

/-- Embedding of Ok.unwrap / Err.unwrap.  Err.unwrap raises its contained
error, which we model as Except.error; Ok.unwrap returns the value. -/
def Result.unwrap {T E : Type} : Result T E → Except E T
  | .Ok v => .ok v
  | .Err e => .error e

/-- Embedding of Ok.unwrap_or (returns self.unwrap(), i.e. the value) and
Err.unwrap_or (returns the default).  Total: never raises. -/
def Result.unwrap_or {T E : Type} : Result T E → T → T
  | .Ok v, _ => v
  | .Err _, d => d

/-- Embedding of Ok.unwrap_or_else (returns the value) and Err.unwrap_or_else
(returns op applied to the error).  Total: never raises. -/
def Result.unwrap_or_else {T E : Type} : Result T E → (E → T) → T
  | .Ok v, _ => v
  | .Err e, op => op e

/-- Python exception classes appearing in this code base, modelled as a flat
hierarchy rooted at Exception (matching isinstance dispatch of except). -/
inductive ExcClass where
  | ExceptionC
  | ValueErrorC
  | KeyErrorC
  | TypeErrorC
  | ZeroDivisionErrorC
deriving Repr, DecidableEq

/-- Python subclass test used by an except clause: every class here is a
subclass of itself and of Exception. -/
def ExcClass.isSubclassOf (c target : ExcClass) : Bool :=
  target = ExcClass.ExceptionC || c = target

/-- Python exception value: its class together with its args (the payload
Err.__eq__ compares). -/
structure Exc where
  cls : ExcClass
  args : String
deriving Repr, DecidableEq

/-- Value of the err keyword argument of returns_result: absent, a single
exception class, or a tuple of exception classes. -/
inductive ErrConfig where
  | noneCfg : ErrConfig
  | single (c : ExcClass) : ErrConfig
  | tupleCfg (cs : List ExcClass) : ErrConfig
deriving Repr, DecidableEq

/-- Embedding of the normalisation at the top of returns_result:
if (err is None) or isinstance(err, tuple): err = Exception. -/
def effective_err : ErrConfig → ExcClass
  | .noneCfg => .ExceptionC
  | .tupleCfg _ => .ExceptionC
  | .single c => c

/-- Outcome of one call of the wrapped function fn: a normal return or a
raised exception. -/
inductive CallOutcome (T : Type) where
  | returns (v : T) : CallOutcome T
  | raises (e : Exc) : CallOutcome T
deriving Repr, DecidableEq

/-- Embedding of one call of the wrapper _fn produced by returns_result:
try return Ok(fn(...)) except err as e: return Err(e).  An uncaught
exception propagates, modelled as Except.error. -/
def returns_result_call {T : Type} (cfg : ErrConfig) (outcome : CallOutcome T) :
    Except Exc (Result T Exc) :=
  match outcome with
  | .returns v => .ok (.Ok v)
  | .raises e =>
      if e.cls.isSubclassOf (effective_err cfg) then .ok (.Err e) else .error e

end Rust

namespace DBCore

/-- Outcome of the body of a scoped context: it either completes normally or
raises an exception of type epsilon. -/
inductive Outcome (ε : Type) where
  | ok : Outcome ε
  | raises (e : ε) : Outcome ε
deriving Repr, DecidableEq

/-- Transaction actions the connection wrapper can perform on scope exit. -/
inductive TxAction where
  | commit
  | rollback
deriving Repr, DecidableEq, BEq

/-- Embedding of DBWrapper.writer as a function of the connection, the
in_transaction flag at entry, and the body outcome.  It returns the
connection yielded to the body, the list of transaction actions performed on
exit, and the propagated outcome.  Mirrors core.py: when in_transaction,
yield and return (no actions, body exception propagates untouched);
otherwise try/except/else with rollback-and-reraise or commit. -/
def writer {ε : Type} (conn : Nat) (in_transaction : Bool) (body : Outcome ε) :
    Nat × List TxAction × Outcome ε :=
  if in_transaction then
    (conn, [], body)
  else
    match body with
    | .ok => (conn, [.commit], .ok)
    | .raises e => (conn, [.rollback], .raises e)

end DBCore

namespace PQ

/-- Stored returning term of SQLQueryBuilder._returns.  A pypika Star or
Field carries a table attribute (Star is a Field subclass); wrapped
constants and field-free function terms do not.  For Field and Star we keep
the data the builder methods inspect (name, table); for other terms only the
SQL string their get_sql call renders. -/
inductive RTerm where
  | star : RTerm
  | field (name : String) (table : Option String) : RTerm
  | other (sql : String) : RTerm
deriving Repr, DecidableEq

/-- Python hasattr(term, "table"): true for Field and its subclass Star,
false for the function/constant terms stored by _return_other. -/
def RTerm.hasTableAttr : RTerm → Bool
  | .star => true
  | .field _ _ => true
  | .other _ => false

/-- Value-level state of SQLQueryBuilder: the fields of __init__ that the
upsert and returning machinery reads or writes, plus the pypika base-class
state it consults (insert/update/delete target, FROM and JOIN tables).
Elements of _on_conflict_fields and the field component of
_on_conflict_do_updates are the rendered SQL of the stored pypika term, or
none when _conflict_field_str returned None; wheres hold the rendered
criterion when set. -/
structure SQLQueryBuilder where
  _insert_table : Option String := none
  _update_table : Option String := none
  _delete_from : Bool := false
  _from : List String := []
  _joins : List String := []
  _returns : List RTerm := []
  _return_star : Bool := false
  _on_conflict : Bool := false
  _on_conflict_fields : List (Option String) := []
  _on_conflict_do_nothing : Bool := false
  _on_conflict_do_updates : List (Option String × Option String) := []
  _on_conflict_wheres : Option String := none
  _on_conflict_do_update_wheres : Option String := none
deriving Repr, DecidableEq

/-- Rendering of a pypika Field at its get_sql interface: the quoted name
(the builder renders conflict and returning fields without a namespace under
its default kwargs). -/
def quoteName (name : String) : String :=
  "\"" ++ name ++ "\""

/-- Embedding of SQLQueryBuilder._conflict_field_str: a Field on the insert
table when one is set, otherwise None. -/
def SQLQueryBuilder.conflict_field_str (b : SQLQueryBuilder) (term : String) :
    Option String :=
  match b._insert_table with
  | some _ => some (quoteName term)
  | none => none

/-- Argument to on_conflict: a string column name or an already-built pypika
term (modelled by its rendered SQL). -/
inductive ConflictTarget where
  | str (s : String) : ConflictTarget
  | term (sql : String) : ConflictTarget
deriving Repr, DecidableEq

/-- Embedding of SQLQueryBuilder.on_conflict (the body run by the builder
decorator on a fresh copy): requires an insert table, sets the _on_conflict
flag, and appends each target field (strings resolved through
_conflict_field_str, terms appended as built). -/
def SQLQueryBuilder.on_conflict (b : SQLQueryBuilder)
    (target_fields : List ConflictTarget) : Except String SQLQueryBuilder :=
  if b._insert_table = none then
    .error "On conflict only applies to insert query"
  else
    .ok (target_fields.foldl
      (fun b t =>
        match t with
        | .str s =>
            { b with _on_conflict_fields :=
                b._on_conflict_fields ++ [b.conflict_field_str s] }
        | .term sql =>
            { b with _on_conflict_fields :=
                b._on_conflict_fields ++ [some sql] })
      { b with _on_conflict := true })

/-- Embedding of SQLQueryBuilder.do_nothing: raises when any do_update entry
exists, otherwise sets the _on_conflict_do_nothing flag. -/
def SQLQueryBuilder.do_nothing (b : SQLQueryBuilder) :
    Except String SQLQueryBuilder :=
  if b._on_conflict_do_updates.length > 0 then
    .error "Can not have two conflict handlers"
  else
    .ok { b with _on_conflict_do_nothing := true }

/-- Argument to do_update: a string column name or a pypika Field (modelled
by its rendered SQL). -/
inductive UpdateField where
  | str (s : String) : UpdateField
  | field (sql : String) : UpdateField
deriving Repr, DecidableEq

/-- Embedding of SQLQueryBuilder.do_update: raises when do_nothing was set,
resolves a string field through _conflict_field_str (None when no insert
table), and appends the (field, wrapped value) pair; a missing update value
is stored as None. -/
def SQLQueryBuilder.do_update (b : SQLQueryBuilder) (update_field : UpdateField)
    (update_value : Option String) : Except String SQLQueryBuilder :=
  if b._on_conflict_do_nothing then
    .error "Can not have two conflict handlers"
  else
    let field : Option String :=
      match update_field with
      | .str s => b.conflict_field_str s
      | .field sql => some sql
    .ok { b with _on_conflict_do_updates :=
        b._on_conflict_do_updates ++ [(field, update_value)] }

/-- Rendering of one stored conflict field, f.get_sql(...): a stored None
raises Python AttributeError (NoneType has no get_sql). -/
def field_get_sql : Option String → Except String String
  | some s => .ok s
  | none => .error "AttributeError: NoneType object has no attribute get_sql"

/-- Rendering of the list comprehension over _on_conflict_fields,
left-to-right, propagating the first failure. -/
def render_conflict_fields : List (Option String) → Except String (List String)
  | [] => .ok []
  | f :: fs => do
      let s ← field_get_sql f
      let rest ← render_conflict_fields fs
      .ok (s :: rest)

/-- Embedding of SQLQueryBuilder._on_conflict_sql: empty when nothing was
declared, a no-handler error when fields exist without a terminal action, a
fieldless error when updates exist without fields, otherwise
ON CONFLICT with the field list and optional WHERE. -/
def SQLQueryBuilder.on_conflict_sql (b : SQLQueryBuilder) :
    Except String String :=
  if !b._on_conflict_do_nothing && b._on_conflict_do_updates.length == 0 then
    if b._on_conflict_fields.isEmpty then
      .ok ""
    else
      .error "No handler defined for on conflict"
  else if !b._on_conflict_do_updates.isEmpty && b._on_conflict_fields.isEmpty then
    .error "Can not have fieldless on conflict do update"
  else do
    let fields ← render_conflict_fields b._on_conflict_fields
    let conflict_query :=
      " ON CONFLICT" ++
        (if b._on_conflict_fields.isEmpty then ""
         else " (" ++ String.intercalate ", " fields ++ ")")
    let conflict_query :=
      match b._on_conflict_wheres with
      | some w => conflict_query ++ " WHERE " ++ w
      | none => conflict_query
    .ok conflict_query

/-- Rendering of one (field, value) update pair: a present value renders as a
literal assignment, an absent one as field=EXCLUDED.field. -/
def render_update_pair (field : String) : Option String → String
  | some v => field ++ "=" ++ v
  | none => field ++ "=EXCLUDED." ++ field

/-- Rendering of the loop over _on_conflict_do_updates, left-to-right,
propagating the first field rendering failure. -/
def render_updates : List (Option String × Option String) →
    Except String (List String)
  | [] => .ok []
  | (f, v) :: rest => do
      let fs ← field_get_sql f
      let tail ← render_updates rest
      .ok (render_update_pair fs v :: tail)

/-- Embedding of SQLQueryBuilder._on_conflict_action_sql: DO NOTHING when the
flag is set, DO UPDATE SET with the rendered assignments (and optional
WHERE) when update pairs exist, empty otherwise. -/
def SQLQueryBuilder.on_conflict_action_sql (b : SQLQueryBuilder) :
    Except String String :=
  if b._on_conflict_do_nothing then
    .ok " DO NOTHING"
  else if b._on_conflict_do_updates.length > 0 then do
    let updates ← render_updates b._on_conflict_do_updates
    let action_sql := " DO UPDATE SET " ++ String.intercalate "," updates
    let action_sql :=
      match b._on_conflict_do_update_wheres with
      | some w => action_sql ++ " WHERE " ++ w
      | none => action_sql
    .ok action_sql
  else
    .ok ""

/-- Tables referenced by a stored term, term.tables_ at the pypika interface:
a Field contributes its table attribute (None included, as pypika collects
field.table values into a set), a Star its None table, other stored terms
here are field-free and contribute nothing. -/
def RTerm.tables_ : RTerm → List (Option String)
  | .star => [none]
  | .field _ t => [t]
  | .other _ => []

/-- Fields contained in a stored term, term.fields_() at the pypika
interface: a Field or Star yields itself, the field-free terms yield
nothing. -/
def RTerm.fields_ : RTerm → List RTerm
  | .star => [.star]
  | .field n t => [.field n t]
  | .other _ => []

/-- Table attribute of a stored Field or Star. -/
def RTerm.tableAttr : RTerm → Option String
  | .star => none
  | .field _ t => t
  | .other _ => none

/-- Embedding of SQLQueryBuilder._validate_returning_term: for every field of
the term, the statement must be an insert, update or delete; and the field
must target the insert/update table (a comparison against a None
update/insert table succeeds for an unqualified field, as in the Python set
membership) or only tables visible in the FROM/JOIN set. -/
def SQLQueryBuilder.validate_returning_term (b : SQLQueryBuilder) (term : RTerm) :
    Except String Unit :=
  term.fields_.foldlM
    (fun _ f =>
      if !(b._insert_table.isSome || b._update_table.isSome || b._delete_from) then
        .error "Returning cannot be used in this query"
      else
        let table_is_insert_or_update_table :=
          f.tableAttr = b._insert_table || f.tableAttr = b._update_table
        let join_and_base_tables :=
          (b._from ++ b._joins).map (fun t => some t)
        let table_not_base_or_join :=
          !(term.tables_.filter (fun t => !join_and_base_tables.contains t)).isEmpty
        if !table_is_insert_or_update_table && table_not_base_or_join then
          .error "You cannot return from other tables"
        else
          .ok ())
    ()

/-- Embedding of SQLQueryBuilder._set_returns_for_star: drop every
accumulated term that has a table attribute and set the star flag. -/
def SQLQueryBuilder.set_returns_for_star (b : SQLQueryBuilder) :
    SQLQueryBuilder :=
  { b with
      _returns := b._returns.filter (fun t => !t.hasTableAttr),
      _return_star := true }

/-- Embedding of SQLQueryBuilder._return_field: once a star was selected the
term is dropped without validation; otherwise the term is validated, a Star
term first re-filters the accumulator, and the term is appended. -/
def SQLQueryBuilder.return_field (b : SQLQueryBuilder) (term : RTerm) :
    Except String SQLQueryBuilder :=
  if b._return_star then
    .ok b
  else do
    let _ ← b.validate_returning_term term
    let b := if term = RTerm.star then b.set_returns_for_star else b
    .ok { b with _returns := b._returns ++ [term] }

/-- Embedding of SQLQueryBuilder._return_field_str: a literal "*" always
re-filters the accumulator and appends a Star (no validation, no star-flag
check before the append); other names become Fields on the insert, update or
delete target table; without any such target the call raises. -/
def SQLQueryBuilder.return_field_str (b : SQLQueryBuilder) (term : String) :
    Except String SQLQueryBuilder :=
  if term = "*" then
    let b := b.set_returns_for_star
    .ok { b with _returns := b._returns ++ [RTerm.star] }
  else
    match b._insert_table with
    | some t => b.return_field (.field term (some t))
    | none =>
        match b._update_table with
        | some t => b.return_field (.field term (some t))
        | none =>
            if b._delete_from then
              match b._from with
              | t :: _ => b.return_field (.field term (some t))
              | [] => .error "IndexError: list index out of range"
            else
              .error "Returning cannot be used in this query"

/-- Embedding of SQLQueryBuilder._return_other: validate, then append. -/
def SQLQueryBuilder.return_other (b : SQLQueryBuilder) (term : RTerm) :
    Except String SQLQueryBuilder := do
  let _ ← b.validate_returning_term term
  .ok { b with _returns := b._returns ++ [term] }

/-- Argument to returning: a pypika Field (or Star, its subclass), a string,
a function or arithmetic term with its aggregate flag, or any other value
(wrapped as a constant). -/
inductive InTerm where
  | fieldT (name : String) (table : Option String) : InTerm
  | starT : InTerm
  | str (s : String) : InTerm
  | funcT (sql : String) (is_aggregate : Bool) : InTerm
  | constT (sql : String) : InTerm
deriving Repr, DecidableEq

/-- Embedding of the per-term dispatch in SQLQueryBuilder.returning:
Field instances (Star included) go to _return_field, strings to
_return_field_str, function or arithmetic terms are rejected when aggregate
and otherwise go to _return_other, and anything else is wrapped as a
constant for _return_other. -/
def SQLQueryBuilder.returning_one (b : SQLQueryBuilder) (term : InTerm) :
    Except String SQLQueryBuilder :=
  match term with
  | .fieldT n t => b.return_field (.field n t)
  | .starT => b.return_field .star
  | .str s => b.return_field_str s
  | .funcT sql agg =>
      if agg then .error "Aggregate functions are not allowed in returning"
      else b.return_other (.other sql)
  | .constT sql => b.return_other (.other sql)

/-- Embedding of SQLQueryBuilder.returning: left-to-right loop over the
terms, propagating the first failure. -/
def SQLQueryBuilder.returning (b : SQLQueryBuilder) (terms : List InTerm) :
    Except String SQLQueryBuilder :=
  match terms with
  | [] => .ok b
  | t :: ts => do
      let b ← b.returning_one t
      b.returning ts

end PQ

namespace RefPQ

/-- Heap of Python list objects the builders reference: one store per list
role (conflict target fields, returning terms, conflict update pairs),
indexed by allocation order. -/
structure RHeap where
  fieldLists : List (List (Option String))
  retLists : List (List PQ.RTerm)
  updLists : List (List (Option String × Option String))
deriving Repr, DecidableEq

/-- Reference-level builder: the same scalar state as the value-level
SQLQueryBuilder, but the three mutable accumulator lists are held by
reference into the heap (as Python attribute slots hold list objects). -/
structure RefBuilder where
  _insert_table : Option String := none
  _update_table : Option String := none
  _delete_from : Bool := false
  _from : List String := []
  _joins : List String := []
  fieldsRef : Nat := 0
  retsRef : Nat := 0
  updatesRef : Nat := 0
  _return_star : Bool := false
  _on_conflict : Bool := false
  _on_conflict_do_nothing : Bool := false
  _on_conflict_wheres : Option String := none
  _on_conflict_do_update_wheres : Option String := none
deriving Repr, DecidableEq

/-- Dereferencing a builder: the value-level SQLQueryBuilder state it denotes
under a given heap. -/
def toPure (h : RHeap) (b : RefBuilder) : PQ.SQLQueryBuilder :=
  { _insert_table := b._insert_table
    _update_table := b._update_table
    _delete_from := b._delete_from
    _from := b._from
    _joins := b._joins
    _returns := h.retLists.getD b.retsRef []
    _return_star := b._return_star
    _on_conflict := b._on_conflict
    _on_conflict_fields := h.fieldLists.getD b.fieldsRef []
    _on_conflict_do_nothing := b._on_conflict_do_nothing
    _on_conflict_do_updates := h.updLists.getD b.updatesRef []
    _on_conflict_wheres := b._on_conflict_wheres
    _on_conflict_do_update_wheres := b._on_conflict_do_update_wheres }

/-- Embedding of SQLQueryBuilder.__copy__: the pypika base __copy__ copies
the attribute dictionary shallowly, so the conflict-fields list object is
shared with the original; the override then rebinds _returns and
_on_conflict_do_updates to fresh copies of their contents. -/
def copyBuilder (h : RHeap) (b : RefBuilder) : RefBuilder × RHeap :=
  ({ b with
      retsRef := h.retLists.length,
      updatesRef := h.updLists.length },
   { h with
      retLists := h.retLists ++ [h.retLists.getD b.retsRef []],
      updLists := h.updLists ++ [h.updLists.getD b.updatesRef []] })

/-- Write the value-level result of a builder-method body back through the
copy's references: each accumulator list object is mutated in place to the
contents the body left it with, and the scalar attributes are rebound on the
copy. -/
def writeBack (h : RHeap) (c : RefBuilder) (p : PQ.SQLQueryBuilder) :
    RefBuilder × RHeap :=
  ({ c with
      _return_star := p._return_star,
      _on_conflict := p._on_conflict,
      _on_conflict_do_nothing := p._on_conflict_do_nothing,
      _on_conflict_wheres := p._on_conflict_wheres,
      _on_conflict_do_update_wheres := p._on_conflict_do_update_wheres },
   { h with
      fieldLists := h.fieldLists.set c.fieldsRef p._on_conflict_fields,
      retLists := h.retLists.set c.retsRef p._returns,
      updLists := h.updLists.set c.updatesRef p._on_conflict_do_updates })

/-- One decorated builder call at the reference level: the builder decorator
first copies self (sharing the conflict-fields list), then runs the method
body on the copy; a raise discards the copy, otherwise the body's effects
land through the copy's references. -/
def refCall (h : RHeap) (b : RefBuilder)
    (body : PQ.SQLQueryBuilder → Except String PQ.SQLQueryBuilder) :
    Except String (RefBuilder × RHeap) :=
  match body (toPure (copyBuilder h b).2 (copyBuilder h b).1) with
  | .error e => .error e
  | .ok p => .ok (writeBack (copyBuilder h b).2 (copyBuilder h b).1 p)

/-- Reference-level on_conflict: decorated call of the on_conflict body. -/
def on_conflictRef (h : RHeap) (b : RefBuilder)
    (target_fields : List PQ.ConflictTarget) :
    Except String (RefBuilder × RHeap) :=
  refCall h b (fun p => p.on_conflict target_fields)

/-- Reference-level do_nothing: decorated call of the do_nothing body. -/
def do_nothingRef (h : RHeap) (b : RefBuilder) :
    Except String (RefBuilder × RHeap) :=
  refCall h b (fun p => p.do_nothing)

/-- Reference-level do_update: decorated call of the do_update body. -/
def do_updateRef (h : RHeap) (b : RefBuilder) (update_field : PQ.UpdateField)
    (update_value : Option String) : Except String (RefBuilder × RHeap) :=
  refCall h b (fun p => p.do_update update_field update_value)

/-- Reference-level returning: decorated call of the returning body. -/
def returningRef (h : RHeap) (b : RefBuilder) (terms : List PQ.InTerm) :
    Except String (RefBuilder × RHeap) :=
  refCall h b (fun p => p.returning terms)

/-- Rendering of the conflict clause of a reference-level builder under a
heap: the value-level rendering of its dereferenced state. -/
def on_conflict_sqlRef (h : RHeap) (b : RefBuilder) : Except String String :=
  (toPure h b).on_conflict_sql

end RefPQ

namespace Stores

/-- Embedding of BaseStore._return_one: scan the rows in order, return Ok of
the first row that model_validate_row maps successfully, skip rows that fail
to map, and fall through to Err(ValueError("Failed to find ... in ..."))
when none maps.  The row type and the validator are abstract parameters:
model_validate_row is engine- and pydantic-facing code consumed at its
Result interface. -/
def return_one {ρ τ : Type} (rows : List ρ) (validate : ρ → Rust.Result τ Rust.Exc)
    (row_cls_name table_name : String) : Rust.Result τ Rust.Exc :=
  match rows with
  | [] =>
      .Err ⟨.ValueErrorC,
        "Failed to find " ++ row_cls_name ++ " in " ++ table_name⟩
  | r :: rs =>
      match validate r with
      | .Ok v => .Ok v
      | .Err _ => return_one rs validate row_cls_name table_name

/-- Embedding of BaseStore._return_one_or_none: scan the rows in order,
return the first row that maps successfully, skip failures, and fall through
to None. -/
def return_one_or_none {ρ τ : Type} (rows : List ρ)
    (validate : ρ → Rust.Result τ Rust.Exc) : Option τ :=
  match rows with
  | [] => none
  | r :: rs =>
      match validate r with
      | .Ok v => some v
      | .Err _ => return_one_or_none rs validate

/-- Specification-side definition, following the spec's words: the first row
of the sequence that maps successfully into the row type, when any does. -/
def firstSuccessfullyMapped {ρ τ : Type} (rows : List ρ)
    (validate : ρ → Rust.Result τ Rust.Exc) : Option τ :=
  match rows with
  | [] => none
  | r :: rs =>
      match validate r with
      | .Ok v => some v
      | .Err _ => firstSuccessfullyMapped rs validate

/-- Python values bound as named parameters (filter values, serialized row
fields). -/
inductive PVal where
  | str (s : String) : PVal
  | int (n : Int) : PVal
  | noneV : PVal
deriving Repr, DecidableEq

/-- Python dict modelled as an insertion-ordered association list with
unique keys maintained by dict_set. -/
abbrev Dict : Type := List (String × PVal)

/-- Lookup of a key: the first binding wins (the only one, for lists built
by dict_set). -/
def dict_get (d : Dict) (k : String) : Option PVal :=
  match d with
  | [] => none
  | (k', v) :: rest => if k' = k then some v else dict_get rest k

/-- Membership of a key. -/
def dict_has (d : Dict) (k : String) : Bool :=
  match d with
  | [] => false
  | (k', _) :: rest => k' = k || dict_has rest k

/-- Python dict assignment d[k] = v: replace the value in place when the key
exists (keeping its position), append the binding otherwise. -/
def dict_set (d : Dict) (k : String) (v : PVal) : Dict :=
  match d with
  | [] => [(k, v)]
  | (k', v') :: rest =>
      if k' = k then (k, v) :: rest else (k', v') :: dict_set rest k v

/-- Python dict merge a | b: start from a and assign every binding of b in
order, so values of b win on key collision. -/
def dict_merge (a b : Dict) : Dict :=
  b.foldl (fun acc kv => dict_set acc kv.1 kv.2) a

/-- Query produced by BaseStore._get_rows_query, at the granularity the
claims need: the rendered equality filters (column name paired with its
parameter placeholder) and the bound parameter mapping. -/
structure QueryWithParameters where
  wheres : List (String × String)
  parameters : Dict
deriving Repr, DecidableEq

/-- Embedding of BaseStore._get_rows_query over its filters argument: for
each filter item, a where clause column = :column is added and the value is
bound under the column-name key in the parameter dict. -/
def get_rows_query (filters : Dict) : QueryWithParameters :=
  { wheres := filters.map (fun kv => (kv.1, ":" ++ kv.1)),
    parameters := filters.foldl (fun ps kv => dict_set ps kv.1 kv.2) [] }

/-- Embedding of BaseStore.get_last's query construction: the filters handed
to _get (hence _get_rows_query) are the dict-merge of the internal
rowid filter, bound to the literal string LAST_INSERT_ROWID(), with the
caller filters on the right of the merge. -/
def get_last_query (callerFilters : Dict) : QueryWithParameters :=
  get_rows_query
    (dict_merge [("rowid", PVal.str "LAST_INSERT_ROWID()")] callerFilters)

end Stores

/-- Claim C4: Ok(v).unwrap() returns v, Ok(v).unwrap_or(d) and
Ok(v).unwrap_or_else(f) return v; Err(e).unwrap() raises exactly e (the only
Result operation converting back into a throwing failure, modelled by the
Except-valued unwrap), Err(e).unwrap_or(d) returns d, and
Err(e).unwrap_or_else(f) returns f(e). -/
theorem result_unwrap_operations (T E : Type) (v : T) (d : T) (f : E → T) (e : E) :
    (Rust.Result.Ok (E := E) v).unwrap = Except.ok v ∧
    (Rust.Result.Ok (E := E) v).unwrap_or d = v ∧
    (Rust.Result.Ok (E := E) v).unwrap_or_else f = v ∧
    (Rust.Result.Err (T := T) e).unwrap = Except.error e ∧
    (Rust.Result.Err (T := T) e).unwrap_or d = d ∧
    (Rust.Result.Err (T := T) e).unwrap_or_else f = f e :=
  ⟨rfl, rfl, rfl, rfl, rfl, rfl⟩

/-- Claim C1: a top-level writer() scope (entered with no open transaction)
performs exactly one of commit or rollback on exit: commit when the body
completes, rollback with the exception re-raised when it raises; a nested
writer() entry (transaction already open) yields the same connection and
performs neither commit nor rollback, propagating the body outcome
untouched. -/
theorem writer_scope_commit_rollback (ε : Type) (conn : Nat) (body : DBCore.Outcome ε) :
    DBCore.writer conn false (DBCore.Outcome.ok (ε := ε)) =
      (conn, [DBCore.TxAction.commit], DBCore.Outcome.ok) ∧
    (∀ e : ε, DBCore.writer conn false (DBCore.Outcome.raises e) =
      (conn, [DBCore.TxAction.rollback], DBCore.Outcome.raises e)) ∧
    (DBCore.writer conn false body).2.1.count DBCore.TxAction.commit +
      (DBCore.writer conn false body).2.1.count DBCore.TxAction.rollback = 1 ∧
    DBCore.writer conn true body = (conn, [], body) := by
  refine ⟨rfl, fun e => rfl, ?_, rfl⟩
  cases body <;> simp [DBCore.writer] <;> decide

/-- Claim C5 counterexample: with a tuple of error kinds configured
(err=(ValueError,)), a call raising a KeyError — an error matching none of
the configured kinds — is captured as Err instead of propagating, because
returns_result replaces any tuple argument by Exception before installing
the except clause.  The claim asserts such an error propagates unchanged. -/
theorem returns_result_tuple_catches_all :
    Rust.returns_result_call (T := Nat)
        (.tupleCfg [.ValueErrorC]) (.raises ⟨.KeyErrorC, "boom"⟩) =
      .ok (.Err ⟨.KeyErrorC, "boom"⟩) ∧
    Rust.returns_result_call (T := Nat)
        (.tupleCfg [.ValueErrorC]) (.raises ⟨.KeyErrorC, "boom"⟩) ≠
      .error ⟨.KeyErrorC, "boom"⟩ := by
  decide

/-- Claim C5 (amended): a wrapped call returning v yields Ok(v) under every
configuration; with a single error kind configured, a raised error of a
matching class is captured as Err and a non-matching one propagates
unchanged; when no kind is configured, or when a tuple of kinds is
configured (the tuple is normalised to Exception), every raised error is
captured as Err. -/
theorem returns_result_capture_spec (T : Type) (cfg : Rust.ErrConfig) (v : T)
    (e : Rust.Exc) (c : Rust.ExcClass) (cs : List Rust.ExcClass) :
    Rust.returns_result_call cfg (.returns v) = .ok (.Ok v) ∧
    (e.cls.isSubclassOf c = true →
      Rust.returns_result_call (T := T) (.single c) (.raises e) = .ok (.Err e)) ∧
    (e.cls.isSubclassOf c = false →
      Rust.returns_result_call (T := T) (.single c) (.raises e) = .error e) ∧
    Rust.returns_result_call (T := T) .noneCfg (.raises e) = .ok (.Err e) ∧
    Rust.returns_result_call (T := T) (.tupleCfg cs) (.raises e) = .ok (.Err e) := by
  refine ⟨rfl, ?_, ?_, ?_, ?_⟩
  · intro h
    simp [Rust.returns_result_call, Rust.effective_err, h]
  · intro h
    simp [Rust.returns_result_call, Rust.effective_err, h]
  · simp [Rust.returns_result_call, Rust.effective_err, Rust.ExcClass.isSubclassOf]
  · simp [Rust.returns_result_call, Rust.effective_err, Rust.ExcClass.isSubclassOf]

/-- Claim C2 counterexample: on a fresh insert-targeted builder with no prior
on_conflict call (flag unset, no conflict fields), do_update raises no
construction error — it succeeds and records the update pair.  The claim
asserts do_update without a prior on_conflict always raises. -/
theorem do_update_without_on_conflict_is_accepted :
    (PQ.SQLQueryBuilder._on_conflict { _insert_table := some "abc" } = false) ∧
    (PQ.SQLQueryBuilder._on_conflict_fields { _insert_table := some "abc" } = []) ∧
    PQ.SQLQueryBuilder.do_update { _insert_table := some "abc" } (.str "name") none =
      .ok { _insert_table := some "abc",
            _on_conflict_do_updates := [(some "\"name\"", none)] } := by
  decide

/-- Claim C2 (amended): the two terminal conflict actions are mutually
exclusive — do_nothing after any do_update raises the two-conflict-handlers
construction error, and do_update after do_nothing raises the same error;
but do_update without a prior on_conflict call (no conflict fields declared)
succeeds at call time, and the error surfaces only when the conflict clause
is rendered, as the fieldless-conflict rendering error. -/
theorem conflict_handlers_mutually_exclusive (b : PQ.SQLQueryBuilder)
    (f : PQ.UpdateField) (v : Option String) :
    (b._on_conflict_do_updates ≠ [] →
      b.do_nothing = .error "Can not have two conflict handlers") ∧
    (b._on_conflict_do_nothing = true →
      b.do_update f v = .error "Can not have two conflict handlers") ∧
    (b._on_conflict_fields = [] → ∀ b',
      b.do_update f v = .ok b' →
      b'.on_conflict_sql = .error "Can not have fieldless on conflict do update") := by
  refine ⟨?_, ?_, ?_⟩
  · intro h
    have hl : 0 < b._on_conflict_do_updates.length := List.length_pos.mpr h
    simp [PQ.SQLQueryBuilder.do_nothing, hl]
  · intro h
    simp [PQ.SQLQueryBuilder.do_update, h]
  · intro hfields b' hok
    by_cases hdn : b._on_conflict_do_nothing
    · simp [PQ.SQLQueryBuilder.do_update, hdn] at hok
    · simp [PQ.SQLQueryBuilder.do_update, hdn] at hok
      subst hok
      simp [PQ.SQLQueryBuilder.on_conflict_sql, hfields]

/-- Claim C2 witness: the amended claim at concrete builders — do_nothing
after a recorded update errors, do_update after do_nothing errors, and a
do_update recorded with no conflict fields makes rendering error. -/
theorem conflict_handlers_mutually_exclusive_witness :
    PQ.SQLQueryBuilder.do_nothing { _on_conflict_do_updates := [(none, none)] } =
      .error "Can not have two conflict handlers" ∧
    PQ.SQLQueryBuilder.do_update { _on_conflict_do_nothing := true } (.str "x") none =
      .error "Can not have two conflict handlers" ∧
    PQ.SQLQueryBuilder.on_conflict_sql
        { _insert_table := some "t",
          _on_conflict_do_updates := [(some "\"x\"", none)] } =
      .error "Can not have fieldless on conflict do update" :=
  ⟨(conflict_handlers_mutually_exclusive
      { _on_conflict_do_updates := [(none, none)] } (.str "x") none).1 (by decide),
   (conflict_handlers_mutually_exclusive
      { _on_conflict_do_nothing := true } (.str "x") none).2.1 (by decide),
   (conflict_handlers_mutually_exclusive
      { _insert_table := some "t" } (.str "x") none).2.2 (by decide)
      { _insert_table := some "t",
        _on_conflict_do_updates := [(some "\"x\"", none)] } (by decide)⟩

theorem render_conflict_fields_somes (fs : List String) :
    PQ.render_conflict_fields (fs.map some) = .ok fs := by
  induction fs with
  | nil => rfl
  | cons f fs ih =>
      simp only [List.map_cons, PQ.render_conflict_fields, PQ.field_get_sql, ih]
      rfl

theorem render_updates_somes (ups : List (String × Option String)) :
    PQ.render_updates (ups.map (fun p => (some p.1, p.2))) =
      .ok (ups.map (fun p =>
        match p.2 with
        | some v => p.1 ++ "=" ++ v
        | none => p.1 ++ "=EXCLUDED." ++ p.1)) := by
  induction ups with
  | nil => rfl
  | cons u us ih =>
      cases u with
      | mk f v =>
          cases v <;>
            (simp only [List.map_cons, PQ.render_updates, PQ.field_get_sql,
              PQ.render_update_pair, ih]; rfl)

/-- Claim C3: rendering the conflict clause — with nothing declared it
renders nothing; with conflict fields but no terminal action it raises the
no-handler error; with update pairs but no conflict fields it raises the
fieldless error; with fields plus exactly one terminal action (and no
conflict-scoped WHERE predicates) it renders deterministically to
ON CONFLICT over the field list followed by DO NOTHING, or by DO UPDATE SET
where a valueless entry renders as field=EXCLUDED.field and a valued entry
as a literal assignment. -/
theorem on_conflict_render_spec (b : PQ.SQLQueryBuilder) (fs : List String)
    (ups : List (String × Option String)) :
    (b._on_conflict_do_nothing = false → b._on_conflict_do_updates = [] →
      b._on_conflict_fields = [] →
      b.on_conflict_sql = .ok "" ∧ b.on_conflict_action_sql = .ok "") ∧
    (b._on_conflict_do_nothing = false → b._on_conflict_do_updates = [] →
      b._on_conflict_fields ≠ [] →
      b.on_conflict_sql = .error "No handler defined for on conflict") ∧
    (b._on_conflict_do_updates ≠ [] → b._on_conflict_fields = [] →
      b.on_conflict_sql = .error "Can not have fieldless on conflict do update") ∧
    (b._on_conflict_do_nothing = true → b._on_conflict_do_updates = [] →
      b._on_conflict_fields = fs.map some → fs ≠ [] →
      b._on_conflict_wheres = none →
      b.on_conflict_sql =
        .ok (" ON CONFLICT" ++ (" (" ++ String.intercalate ", " fs ++ ")")) ∧
      b.on_conflict_action_sql = .ok " DO NOTHING") ∧
    (b._on_conflict_do_nothing = false →
      b._on_conflict_do_updates = ups.map (fun p => (some p.1, p.2)) → ups ≠ [] →
      b._on_conflict_fields = fs.map some → fs ≠ [] →
      b._on_conflict_wheres = none → b._on_conflict_do_update_wheres = none →
      b.on_conflict_sql =
        .ok (" ON CONFLICT" ++ (" (" ++ String.intercalate ", " fs ++ ")")) ∧
      b.on_conflict_action_sql = .ok (" DO UPDATE SET " ++
        String.intercalate "," (ups.map (fun p =>
          match p.2 with
          | some v => p.1 ++ "=" ++ v
          | none => p.1 ++ "=EXCLUDED." ++ p.1)))) := by
  refine ⟨?_, ?_, ?_, ?_, ?_⟩
  · intro h1 h2 h3
    constructor <;>
      simp [PQ.SQLQueryBuilder.on_conflict_sql,
        PQ.SQLQueryBuilder.on_conflict_action_sql, h1, h2, h3]
  · intro h1 h2 h3
    simp [PQ.SQLQueryBuilder.on_conflict_sql, h1, h2, h3]
  · intro h1 h2
    have hl : 0 < b._on_conflict_do_updates.length := List.length_pos.mpr h1
    simp [PQ.SQLQueryBuilder.on_conflict_sql, h1, h2, Nat.pos_iff_ne_zero.mp hl]
  · intro h1 h2 h3 h4 h5
    have hfe : b._on_conflict_fields.isEmpty = false := by
      cases fs with
      | nil => exact absurd rfl h4
      | cons a l => simp [h3]
    constructor
    · simp only [PQ.SQLQueryBuilder.on_conflict_sql, h1, h2, hfe, h3, h5,
        render_conflict_fields_somes, Bool.not_true, Bool.false_and, List.length_nil,
        Bool.false_eq_true, if_false, List.isEmpty_nil]
      simp [h4]
      rfl
    · simp [PQ.SQLQueryBuilder.on_conflict_action_sql, h1]
  · intro h1 h2 h3 h4 h5 h6 h7
    have hue : b._on_conflict_do_updates.length ≠ 0 := by
      simp [h2]
      exact h3
    have hfe : b._on_conflict_fields.isEmpty = false := by
      cases fs with
      | nil => exact absurd rfl h5
      | cons a l => simp [h4]
    constructor
    · simp only [PQ.SQLQueryBuilder.on_conflict_sql, h1, hue, hfe, h4, h6,
        render_conflict_fields_somes, Bool.not_false, Bool.true_and, beq_iff_eq]
      simp [h2, h3, h5]
      rfl
    · simp only [PQ.SQLQueryBuilder.on_conflict_action_sql, h1, h2, h7,
        render_updates_somes, Bool.false_eq_true, if_false]
      simp [List.length_pos.mpr h3]
      rfl

/-- Claim C3 witness: the rendering cases of the claim at concrete builders —
a fields-plus-do-nothing builder renders ON CONFLICT ... DO NOTHING, and a
fields-plus-do-update builder renders ON CONFLICT ... DO UPDATE SET with an
EXCLUDED assignment for the valueless entry and a literal assignment for the
valued one. -/
theorem on_conflict_render_spec_witness :
    PQ.SQLQueryBuilder.on_conflict_sql
        { _on_conflict_do_nothing := true,
          _on_conflict_fields := [some "\"id\""] } =
      .ok " ON CONFLICT (\"id\")" ∧
    PQ.SQLQueryBuilder.on_conflict_action_sql
        { _on_conflict_do_nothing := true,
          _on_conflict_fields := [some "\"id\""] } =
      .ok " DO NOTHING" ∧
    PQ.SQLQueryBuilder.on_conflict_sql
        { _on_conflict_fields := [some "\"id\""],
          _on_conflict_do_updates := [(some "\"a\"", none), (some "\"b\"", some "1")] } =
      .ok " ON CONFLICT (\"id\")" ∧
    PQ.SQLQueryBuilder.on_conflict_action_sql
        { _on_conflict_fields := [some "\"id\""],
          _on_conflict_do_updates := [(some "\"a\"", none), (some "\"b\"", some "1")] } =
      .ok " DO UPDATE SET \"a\"=EXCLUDED.\"a\",\"b\"=1" := by
  have hN := (on_conflict_render_spec
      { _on_conflict_do_nothing := true, _on_conflict_fields := [some "\"id\""] }
      ["\"id\""] []).2.2.2.1
    (by decide) (by decide) (by decide) (by decide) (by decide)
  have hU := (on_conflict_render_spec
      { _on_conflict_fields := [some "\"id\""],
        _on_conflict_do_updates := [(some "\"a\"", none), (some "\"b\"", some "1")] }
      ["\"id\""] [("\"a\"", none), ("\"b\"", some "1")]).2.2.2.2
    (by decide) (by decide) (by decide) (by decide) (by decide) (by decide) (by decide)
  exact ⟨hN.1.trans (by decide), hN.2, hU.1.trans (by decide), hU.2.trans (by decide)⟩

/-- Claim C6: over any sequence of raw rows, the single-row mapper behind
get_one returns Ok of the first row that maps successfully and the not-found
ValueError exactly when no row maps (rows failing to map are skipped, never
raised), while the mapper behind get_one_or_none returns the first
successfully-mapped row or None and by its type never yields an error. -/
theorem get_one_first_mapped_spec {ρ τ : Type} (rows : List ρ)
    (validate : ρ → Rust.Result τ Rust.Exc) (row_cls_name table_name : String) :
    Stores.return_one rows validate row_cls_name table_name =
      (match Stores.firstSuccessfullyMapped rows validate with
       | some v => Rust.Result.Ok v
       | none => Rust.Result.Err ⟨Rust.ExcClass.ValueErrorC,
           "Failed to find " ++ row_cls_name ++ " in " ++ table_name⟩) ∧
    ((∃ e, Stores.return_one rows validate row_cls_name table_name =
        Rust.Result.Err e) ↔
      ∀ r ∈ rows, ∃ e, validate r = Rust.Result.Err e) ∧
    Stores.return_one_or_none rows validate =
      Stores.firstSuccessfullyMapped rows validate := by
  induction rows with
  | nil =>
      refine ⟨rfl, ?_, rfl⟩
      simp [Stores.return_one, Stores.firstSuccessfullyMapped]
  | cons r rs ih =>
      refine ⟨?_, ?_, ?_⟩
      · cases hv : validate r with
        | Ok v =>
            simp [Stores.return_one, Stores.firstSuccessfullyMapped, hv]
        | Err e =>
            simp only [Stores.return_one, Stores.firstSuccessfullyMapped, hv]
            exact ih.1
      · cases hv : validate r with
        | Ok v =>
            simp [Stores.return_one, Stores.firstSuccessfullyMapped, hv]
        | Err e =>
            simp only [Stores.return_one, Stores.firstSuccessfullyMapped, hv]
            constructor
            · intro hex x hx
              rcases List.mem_cons.mp hx with heq | hmem
              · exact heq ▸ ⟨e, hv⟩
              · exact (ih.2.1.mp hex) x hmem
            · intro hall
              exact ih.2.1.mpr (fun x hx => hall x (List.mem_cons_of_mem r hx))
      · cases hv : validate r with
        | Ok v =>
            simp [Stores.return_one_or_none, Stores.firstSuccessfullyMapped, hv]
        | Err e =>
            simp only [Stores.return_one_or_none, Stores.firstSuccessfullyMapped, hv]
            exact ih.2.2

/-- Claim C6 witness: on a concrete row list whose first row fails to map and
whose second maps, get_one's mapper returns the second row, and on a list
where nothing maps it returns the not-found error while get_one_or_none's
mapper returns None. -/
theorem get_one_first_mapped_spec_witness :
    Stores.return_one (ρ := Nat) (τ := Nat) [0, 1, 2]
        (fun r => if r = 1 then .Ok 10 else .Err ⟨.ValueErrorC, "bad"⟩) "R" "T" =
      .Ok 10 ∧
    Stores.return_one (ρ := Nat) (τ := Nat) [0, 2]
        (fun r => if r = 1 then .Ok 10 else .Err ⟨.ValueErrorC, "bad"⟩) "R" "T" =
      .Err ⟨.ValueErrorC, "Failed to find R in T"⟩ ∧
    Stores.return_one_or_none (ρ := Nat) (τ := Nat) [0, 2]
        (fun r => if r = 1 then .Ok 10 else .Err ⟨.ValueErrorC, "bad"⟩) =
      none := by
  refine ⟨?_, ?_, ?_⟩
  · exact (get_one_first_mapped_spec [0, 1, 2]
      (fun r => if r = 1 then .Ok 10 else .Err ⟨.ValueErrorC, "bad"⟩) "R" "T").1.trans
      (by decide)
  · exact (get_one_first_mapped_spec [0, 2]
      (fun r => if r = 1 then .Ok 10 else .Err ⟨.ValueErrorC, "bad"⟩) "R" "T").1.trans
      (by decide)
  · exact (get_one_first_mapped_spec [0, 2]
      (fun r => if r = 1 then .Ok 10 else .Err ⟨.ValueErrorC, "bad"⟩) "R" "T").2.2.trans
      (by decide)

/-- Claim C7: after returning("*") on a builder, every subsequent returning
call with a table-qualified field term adds no term to the accumulated
returning list (the call returns the builder unchanged, so the rendered term
count is unchanged); and adding the star removed every previously-added
table-qualified term, leaving only the attribute-free terms followed by the
star, so no field term remains in the list. -/
theorem returning_star_absorbs_fields (b b1 : PQ.SQLQueryBuilder)
    (h : b.returning [.str "*"] = .ok b1) :
    (∀ name t, b1.returning [.fieldT name (some t)] = .ok b1) ∧
    b1._returns =
      b._returns.filter (fun x => !x.hasTableAttr) ++ [PQ.RTerm.star] ∧
    (∀ n t, PQ.RTerm.field n t ∉ b1._returns) := by
  have hcomp : b.returning [PQ.InTerm.str "*"] =
      .ok { b.set_returns_for_star with
        _returns := b.set_returns_for_star._returns ++ [PQ.RTerm.star] } := rfl
  rw [hcomp] at h
  injection h with hb1
  subst hb1
  refine ⟨?_, ?_, ?_⟩
  · intro name t
    rfl
  · rfl
  · intro n t hmem
    simp only [PQ.SQLQueryBuilder.set_returns_for_star] at hmem
    rcases List.mem_append.mp hmem with hf | hs
    · have hp := List.of_mem_filter hf
      simp [PQ.RTerm.hasTableAttr] at hp
    · simp at hs

/-- Claim C7 witness: a concrete insert builder with one table-qualified
returning term — after returning("*"), a further qualified returning call
leaves the builder unchanged and the earlier qualified term is gone from the
accumulated list. -/
theorem returning_star_absorbs_fields_witness :
    PQ.SQLQueryBuilder.returning
        { _insert_table := some "t",
          _returns := [PQ.RTerm.star], _return_star := true }
        [.fieldT "b" (some "t")] =
      .ok { _insert_table := some "t",
            _returns := [PQ.RTerm.star], _return_star := true } ∧
    PQ.RTerm.field "a" (some "t") ∉
      PQ.SQLQueryBuilder._returns
        { _insert_table := some "t",
          _returns := [PQ.RTerm.star], _return_star := true } := by
  have h := returning_star_absorbs_fields
    { _insert_table := some "t", _returns := [PQ.RTerm.field "a" (some "t")] }
    { _insert_table := some "t", _returns := [PQ.RTerm.star], _return_star := true }
    (by decide)
  exact ⟨h.1 "b" "t", h.2.2 "a" (some "t")⟩

theorem dict_get_set_self (d : Stores.Dict) (k : String) (v : Stores.PVal) :
    Stores.dict_get (Stores.dict_set d k v) k = some v := by
  induction d with
  | nil => simp [Stores.dict_set, Stores.dict_get]
  | cons kv rest ih =>
      by_cases h : kv.1 = k
      · simp [Stores.dict_set, Stores.dict_get, h]
      · simp [Stores.dict_set, Stores.dict_get, h, ih]

theorem dict_get_set_ne (d : Stores.Dict) (k k' : String) (v : Stores.PVal)
    (h : k ≠ k') :
    Stores.dict_get (Stores.dict_set d k v) k' = Stores.dict_get d k' := by
  induction d with
  | nil => simp [Stores.dict_set, Stores.dict_get, h]
  | cons kv rest ih =>
      by_cases h0 : kv.1 = k
      · simp [Stores.dict_set, Stores.dict_get, h0, h]
      · by_cases h1 : kv.1 = k'
        · simp [Stores.dict_set, Stores.dict_get, h0, h1, Ne.symm h]
        · simp [Stores.dict_set, Stores.dict_get, h0, h1, ih]

theorem foldl_set_get_not_mem (l : Stores.Dict) (acc : Stores.Dict) (k : String)
    (h : ∀ kv ∈ l, kv.1 ≠ k) :
    Stores.dict_get
        (l.foldl (fun a kv => Stores.dict_set a kv.1 kv.2) acc) k =
      Stores.dict_get acc k := by
  induction l generalizing acc with
  | nil => rfl
  | cons kv rest ih =>
      rw [List.foldl_cons,
        ih _ (fun x hx => h x (List.mem_cons_of_mem kv hx)),
        dict_get_set_ne _ _ _ _ (h kv (List.mem_cons_self kv rest))]

theorem foldl_set_get_of_get (l : Stores.Dict) (acc : Stores.Dict) (k : String)
    (v : Stores.PVal) (hnd : (l.map Prod.fst).Nodup)
    (h : Stores.dict_get l k = some v) :
    Stores.dict_get
        (l.foldl (fun a kv => Stores.dict_set a kv.1 kv.2) acc) k = some v := by
  induction l generalizing acc with
  | nil => simp [Stores.dict_get] at h
  | cons kv rest ih =>
      rw [List.map_cons, List.nodup_cons] at hnd
      by_cases h0 : kv.1 = k
      · have hv : v = kv.2 := by
          simp [Stores.dict_get, h0] at h
          exact h.symm
        subst hv
        rw [List.foldl_cons,
          foldl_set_get_not_mem rest _ k
            (fun x hx hk => hnd.1 (h0 ▸ hk ▸ List.mem_map_of_mem Prod.fst hx)),
          h0, dict_get_set_self]
      · have h1 : Stores.dict_get rest k = some v := by
          simpa [Stores.dict_get, h0] using h
        rw [List.foldl_cons]
        exact ih _ hnd.2 h1

theorem mem_keys_set (d : Stores.Dict) (k : String) (v : Stores.PVal)
    (x : String) (h : x ∈ (Stores.dict_set d k v).map Prod.fst) :
    x = k ∨ x ∈ d.map Prod.fst := by
  induction d with
  | nil =>
      simp [Stores.dict_set] at h
      exact Or.inl h
  | cons kv rest ih =>
      by_cases h0 : kv.1 = k
      · rw [show Stores.dict_set (kv :: rest) k v = (k, v) :: rest by
            simp [Stores.dict_set, h0],
          List.map_cons] at h
        rcases List.mem_cons.mp h with heq | hmem
        · exact Or.inl heq
        · exact Or.inr (by simp [hmem])
      · rw [show Stores.dict_set (kv :: rest) k v = kv :: Stores.dict_set rest k v by
            simp [Stores.dict_set, h0],
          List.map_cons] at h
        rcases List.mem_cons.mp h with heq | hmem
        · exact Or.inr (by simp [heq])
        · rcases ih hmem with hx | hx
          · exact Or.inl hx
          · exact Or.inr (by simp [hx])

theorem dict_set_keys_nodup (d : Stores.Dict) (k : String) (v : Stores.PVal)
    (h : (d.map Prod.fst).Nodup) :
    ((Stores.dict_set d k v).map Prod.fst).Nodup := by
  induction d with
  | nil => simp [Stores.dict_set]
  | cons kv rest ih =>
      rw [List.map_cons, List.nodup_cons] at h
      by_cases h0 : kv.1 = k
      · rw [show Stores.dict_set (kv :: rest) k v = (k, v) :: rest by
            simp [Stores.dict_set, h0],
          List.map_cons, List.nodup_cons]
        exact ⟨h0 ▸ h.1, h.2⟩
      · rw [show Stores.dict_set (kv :: rest) k v =
            kv :: Stores.dict_set rest k v by simp [Stores.dict_set, h0]]
        rw [List.map_cons, List.nodup_cons]
        refine ⟨fun hm => ?_, ih h.2⟩
        rcases mem_keys_set rest k v kv.1 hm with hx | hx
        · exact h0 hx
        · exact h.1 hx

theorem foldl_set_keys_nodup (l : Stores.Dict) (acc : Stores.Dict)
    (h : (acc.map Prod.fst).Nodup) :
    (((l.foldl (fun a kv => Stores.dict_set a kv.1 kv.2) acc)).map Prod.fst).Nodup := by
  induction l generalizing acc with
  | nil => exact h
  | cons kv rest ih =>
      rw [List.foldl_cons]
      exact ih _ (dict_set_keys_nodup acc kv.1 kv.2 h)

theorem dict_has_false_forall (d : Stores.Dict) (k : String)
    (h : Stores.dict_has d k = false) :
    ∀ kv ∈ d, kv.1 ≠ k := by
  induction d with
  | nil => intro kv hkv; cases hkv
  | cons kv0 rest ih =>
      simp only [Stores.dict_has, Bool.or_eq_false_iff, decide_eq_false_iff_not] at h
      intro kv hkv
      rcases List.mem_cons.mp hkv with heq | hmem
      · exact heq ▸ h.1
      · exact ih h.2 kv hmem

theorem dict_get_some_mem (d : Stores.Dict) (k : String) (v : Stores.PVal)
    (h : Stores.dict_get d k = some v) : (k, v) ∈ d := by
  induction d with
  | nil => simp [Stores.dict_get] at h
  | cons kv rest ih =>
      by_cases h0 : kv.1 = k
      · simp only [Stores.dict_get, h0, if_pos] at h
        have : kv = (k, v) := by
          cases kv
          simp at h0
          simp only [Option.some.injEq] at h
          simp [h0, h]
        exact this ▸ List.mem_cons_self kv rest
      · simp only [Stores.dict_get, h0, if_neg, if_false] at h
        exact List.mem_cons_of_mem kv (ih h)

/-- Claim C8: the filters get_last executes are the internal
most-recently-inserted-rowid filter dict-merged with the caller filters, and
on a key collision at "rowid" the caller-supplied value is the one bound in
the final parameter mapping — the caller dict sits on the right of the
Python merge, so its values win. -/
theorem get_last_caller_filter_precedence (cf : Stores.Dict) (v : Stores.PVal)
    (hnd : (cf.map Prod.fst).Nodup)
    (hv : Stores.dict_get cf "rowid" = some v) :
    Stores.dict_get (Stores.get_last_query cf).parameters "rowid" = some v := by
  have h1 : Stores.dict_get
      (Stores.dict_merge [("rowid", Stores.PVal.str "LAST_INSERT_ROWID()")] cf)
      "rowid" = some v :=
    foldl_set_get_of_get cf _ "rowid" v hnd hv
  have hnd2 : ((Stores.dict_merge
      [("rowid", Stores.PVal.str "LAST_INSERT_ROWID()")] cf).map Prod.fst).Nodup :=
    foldl_set_keys_nodup cf _ (by decide)
  exact foldl_set_get_of_get _ [] "rowid" v hnd2 h1

/-- Claim C8 witness: a caller filter binding "rowid" to 5 wins over the
internal rowid filter in the parameters handed to the engine. -/
theorem get_last_caller_filter_precedence_witness :
    Stores.dict_get
        (Stores.get_last_query [("rowid", Stores.PVal.int 5)]).parameters
        "rowid" = some (Stores.PVal.int 5) :=
  get_last_caller_filter_precedence [("rowid", Stores.PVal.int 5)]
    (Stores.PVal.int 5) (by decide) (by decide)

/-- Claim C10: when the caller filters do not contain the key "rowid", the
parameter mapping of the query get_last executes binds "rowid" to the
literal Python string LAST_INSERT_ROWID() — a bound parameter value, not an
evaluated SQL function — and the query carries the rendered placeholder
filter rowid = :rowid comparing the rowid column against that string. -/
theorem get_last_rowid_literal_binding (cf : Stores.Dict)
    (h : Stores.dict_has cf "rowid" = false) :
    Stores.dict_get (Stores.get_last_query cf).parameters "rowid" =
      some (Stores.PVal.str "LAST_INSERT_ROWID()") ∧
    ("rowid", ":rowid") ∈ (Stores.get_last_query cf).wheres := by
  have hne := dict_has_false_forall cf "rowid" h
  have h1 : Stores.dict_get
      (Stores.dict_merge [("rowid", Stores.PVal.str "LAST_INSERT_ROWID()")] cf)
      "rowid" = some (Stores.PVal.str "LAST_INSERT_ROWID()") := by
    rw [show Stores.dict_merge [("rowid", Stores.PVal.str "LAST_INSERT_ROWID()")] cf =
        cf.foldl (fun a kv => Stores.dict_set a kv.1 kv.2)
          [("rowid", Stores.PVal.str "LAST_INSERT_ROWID()")] from rfl,
      foldl_set_get_not_mem cf _ "rowid" hne]
    rfl
  refine ⟨?_, ?_⟩
  · exact foldl_set_get_of_get _ [] "rowid" _
      (foldl_set_keys_nodup cf _ (by decide)) h1
  · have hmem := dict_get_some_mem _ "rowid" _ h1
    exact List.mem_map_of_mem
      (fun kv : String × Stores.PVal => (kv.1, ":" ++ kv.1)) hmem

/-- Claim C10 witness: with the caller filter id=1 (no rowid key), the bound
parameters map "rowid" to the literal string and the rendered filter pair is
present. -/
theorem get_last_rowid_literal_binding_witness :
    Stores.dict_get
        (Stores.get_last_query [("id", Stores.PVal.int 1)]).parameters "rowid" =
      some (Stores.PVal.str "LAST_INSERT_ROWID()") ∧
    ("rowid", ":rowid") ∈
      (Stores.get_last_query [("id", Stores.PVal.int 1)]).wheres :=
  get_last_rowid_literal_binding [("id", Stores.PVal.int 1)] (by decide)

theorem getD_append_lt {α : Type} (l l' : List α) (i : Nat) (d : α)
    (h : i < l.length) : (l ++ l').getD i d = l.getD i d := by
  induction l generalizing i with
  | nil => exact absurd h (Nat.not_lt_zero i)
  | cons a rest ih =>
      cases i with
      | zero => rfl
      | succ n => exact ih n (Nat.lt_of_succ_lt_succ h)

theorem getD_set_ne {α : Type} (l : List α) (i j : Nat) (v : α) (d : α)
    (h : j ≠ i) : (l.set j v).getD i d = l.getD i d := by
  induction l generalizing i j with
  | nil => rfl
  | cons a rest ih =>
      cases j with
      | zero =>
          cases i with
          | zero => exact absurd rfl h
          | succ n => rfl
      | succ m =>
          cases i with
          | zero => rfl
          | succ n => exact ih n m (fun hh => h (congrArg Nat.succ hh))

theorem getD_set_getD {α : Type} (l : List α) (i : Nat) (d : α) :
    (l.set i (l.getD i d)).getD i d = l.getD i d := by
  induction l generalizing i with
  | nil => rfl
  | cons a rest ih =>
      cases i with
      | zero => rfl
      | succ n => exact ih n

theorem do_nothing_lists_invariant (b b' : PQ.SQLQueryBuilder)
    (h : b.do_nothing = .ok b') :
    b'._on_conflict_fields = b._on_conflict_fields := by
  unfold PQ.SQLQueryBuilder.do_nothing at h
  split at h
  · cases h
  · injection h with h
    subst h
    rfl

theorem do_update_lists_invariant (b b' : PQ.SQLQueryBuilder)
    (f : PQ.UpdateField) (v : Option String) (h : b.do_update f v = .ok b') :
    b'._on_conflict_fields = b._on_conflict_fields := by
  unfold PQ.SQLQueryBuilder.do_update at h
  split at h
  · cases h
  · injection h with h
    subst h
    rfl

theorem return_field_lists_invariant (b b' : PQ.SQLQueryBuilder)
    (t : PQ.RTerm) (h : b.return_field t = .ok b') :
    b'._on_conflict_fields = b._on_conflict_fields := by
  unfold PQ.SQLQueryBuilder.return_field at h
  split at h
  · injection h with h
    subst h
    rfl
  · cases hv : b.validate_returning_term t with
    | error e => rw [hv] at h; cases h
    | ok u =>
        rw [hv] at h
        by_cases hs : t = PQ.RTerm.star
        · rw [if_pos hs] at h
          injection h with h
          subst h
          rfl
        · rw [if_neg hs] at h
          injection h with h
          subst h
          rfl

theorem return_field_str_lists_invariant (b b' : PQ.SQLQueryBuilder)
    (s : String) (h : b.return_field_str s = .ok b') :
    b'._on_conflict_fields = b._on_conflict_fields := by
  unfold PQ.SQLQueryBuilder.return_field_str at h
  split at h
  · injection h with h
    subst h
    rfl
  · split at h
    · exact return_field_lists_invariant _ _ _ h
    · split at h
      · exact return_field_lists_invariant _ _ _ h
      · split at h
        · split at h
          · exact return_field_lists_invariant _ _ _ h
          · cases h
        · cases h

theorem return_other_lists_invariant (b b' : PQ.SQLQueryBuilder)
    (t : PQ.RTerm) (h : b.return_other t = .ok b') :
    b'._on_conflict_fields = b._on_conflict_fields := by
  unfold PQ.SQLQueryBuilder.return_other at h
  cases hv : b.validate_returning_term t with
  | error e => rw [hv] at h; cases h
  | ok u =>
      rw [hv] at h
      injection h with h
      subst h
      rfl

theorem returning_one_lists_invariant (b b' : PQ.SQLQueryBuilder)
    (t : PQ.InTerm) (h : b.returning_one t = .ok b') :
    b'._on_conflict_fields = b._on_conflict_fields := by
  cases t with
  | fieldT n tb => exact return_field_lists_invariant _ _ _ h
  | starT => exact return_field_lists_invariant _ _ _ h
  | str s => exact return_field_str_lists_invariant _ _ _ h
  | funcT sql agg =>
      simp only [PQ.SQLQueryBuilder.returning_one] at h
      by_cases hagg : agg = true
      · rw [if_pos hagg] at h
        cases h
      · rw [if_neg hagg] at h
        exact return_other_lists_invariant _ _ _ h
  | constT sql => exact return_other_lists_invariant _ _ _ h

theorem returning_lists_invariant (terms : List PQ.InTerm)
    (b b' : PQ.SQLQueryBuilder) (h : b.returning terms = .ok b') :
    b'._on_conflict_fields = b._on_conflict_fields := by
  induction terms generalizing b with
  | nil =>
      unfold PQ.SQLQueryBuilder.returning at h
      injection h with h
      subst h
      rfl
  | cons t ts ih =>
      unfold PQ.SQLQueryBuilder.returning at h
      cases h1 : b.returning_one t with
      | error e => rw [h1] at h; cases h
      | ok bmid =>
          rw [h1] at h
          exact (ih bmid h).trans (returning_one_lists_invariant b bmid t h1)

theorem refCall_isolates (h0 h1 : RefPQ.RHeap) (b c : RefPQ.RefBuilder)
    (body : PQ.SQLQueryBuilder → Except String PQ.SQLQueryBuilder)
    (hbody : ∀ q p, body q = .ok p →
      p._on_conflict_fields = q._on_conflict_fields)
    (hfr : c.fieldsRef = b.fieldsRef)
    (hflists : h1.fieldLists = h0.fieldLists)
    (hrlt : b.retsRef < h1.retLists.length)
    (hrget : h1.retLists.getD b.retsRef [] = h0.retLists.getD b.retsRef [])
    (hult : b.updatesRef < h1.updLists.length)
    (huget : h1.updLists.getD b.updatesRef [] = h0.updLists.getD b.updatesRef [])
    (c2 : RefPQ.RefBuilder) (h2 : RefPQ.RHeap)
    (hok : RefPQ.refCall h1 c body = .ok (c2, h2)) :
    RefPQ.toPure h2 b = RefPQ.toPure h0 b := by
  unfold RefPQ.refCall at hok
  cases hp : body (RefPQ.toPure (RefPQ.copyBuilder h1 c).2 (RefPQ.copyBuilder h1 c).1) with
  | error e =>
      rw [hp] at hok
      cases hok
  | ok p =>
      rw [hp] at hok
      injection hok with hok
      have hh2 := congrArg Prod.snd hok
      simp only [RefPQ.writeBack, RefPQ.copyBuilder] at hh2
      have hfields := hbody _ _ hp
      simp only [RefPQ.toPure, RefPQ.copyBuilder] at hfields
      have hretne : h1.retLists.length ≠ b.retsRef :=
        fun hh => Nat.lt_irrefl _ (hh ▸ hrlt)
      have hupdne : h1.updLists.length ≠ b.updatesRef :=
        fun hh => Nat.lt_irrefl _ (hh ▸ hult)
      rw [← hh2]
      unfold RefPQ.toPure
      simp only []
      rw [hfields, hfr]
      congr 1
      · rw [getD_set_ne _ _ _ _ _ hretne,
          getD_append_lt _ _ _ _ hrlt, hrget]
      · rw [getD_set_getD, hflists]
      · rw [getD_set_ne _ _ _ _ _ hupdne,
          getD_append_lt _ _ _ _ hult, huget]

/-- Claim C9 counterexample: the conflict-target-fields list object is
shared between a builder and its copy — after copying a fresh insert builder
and calling on_conflict("id") on the copy, rendering the ORIGINAL raises the
no-handler error where it rendered an empty clause before the copy was made.
The claim asserts that rendering the original is unaffected by any builder
call on the copy. -/
theorem builder_copy_shares_conflict_fields :
    RefPQ.on_conflictRef
        (RefPQ.copyBuilder ⟨[[]], [[]], [[]]⟩ { _insert_table := some "t" }).2
        (RefPQ.copyBuilder ⟨[[]], [[]], [[]]⟩ { _insert_table := some "t" }).1
        [.str "id"] =
      .ok ({ _insert_table := some "t", _on_conflict := true,
             retsRef := 2, updatesRef := 2 },
           ⟨[[some "\"id\""]], [[], [], []], [[], [], []]⟩) ∧
    RefPQ.on_conflict_sqlRef ⟨[[some "\"id\""]], [[], [], []], [[], [], []]⟩
        { _insert_table := some "t" } =
      .error "No handler defined for on conflict" ∧
    RefPQ.on_conflict_sqlRef ⟨[[]], [[]], [[]]⟩ { _insert_table := some "t" } =
      .ok "" := by
  decide

/-- Claim C9 (amended): duplicating a builder deep-copies the mutable
returning-terms and conflict-update-pairs lists, so do_update, do_nothing
and returning calls on a copy never affect the original's dereferenced
state (hence its rendering); but the conflict-target-fields list object is
shared between copy and original, so an on_conflict call on the copy can
change what the original renders. -/
theorem builder_copy_isolation_spec (h : RefPQ.RHeap) (b : RefPQ.RefBuilder)
    (hf : b.fieldsRef < h.fieldLists.length)
    (hr : b.retsRef < h.retLists.length)
    (hu : b.updatesRef < h.updLists.length) :
    (∀ f v c2 h2,
      RefPQ.do_updateRef (RefPQ.copyBuilder h b).2 (RefPQ.copyBuilder h b).1 f v =
        .ok (c2, h2) → RefPQ.toPure h2 b = RefPQ.toPure h b) ∧
    (∀ c2 h2,
      RefPQ.do_nothingRef (RefPQ.copyBuilder h b).2 (RefPQ.copyBuilder h b).1 =
        .ok (c2, h2) → RefPQ.toPure h2 b = RefPQ.toPure h b) ∧
    (∀ terms c2 h2,
      RefPQ.returningRef (RefPQ.copyBuilder h b).2 (RefPQ.copyBuilder h b).1 terms =
        .ok (c2, h2) → RefPQ.toPure h2 b = RefPQ.toPure h b) := by
  have hrlt : b.retsRef < (RefPQ.copyBuilder h b).2.retLists.length := by
    simp only [RefPQ.copyBuilder, List.length_append, List.length_cons,
      List.length_nil]
    exact Nat.lt_succ_of_lt hr
  have hult : b.updatesRef < (RefPQ.copyBuilder h b).2.updLists.length := by
    simp only [RefPQ.copyBuilder, List.length_append, List.length_cons,
      List.length_nil]
    exact Nat.lt_succ_of_lt hu
  have hrget : (RefPQ.copyBuilder h b).2.retLists.getD b.retsRef [] =
      h.retLists.getD b.retsRef [] := by
    simp only [RefPQ.copyBuilder]
    exact getD_append_lt _ _ _ _ hr
  have huget : (RefPQ.copyBuilder h b).2.updLists.getD b.updatesRef [] =
      h.updLists.getD b.updatesRef [] := by
    simp only [RefPQ.copyBuilder]
    exact getD_append_lt _ _ _ _ hu
  refine ⟨?_, ?_, ?_⟩
  · intro f v c2 h2 hok
    exact refCall_isolates h (RefPQ.copyBuilder h b).2 b (RefPQ.copyBuilder h b).1 _
      (fun q p hq => do_update_lists_invariant q p f v hq)
      rfl rfl hrlt hrget hult huget c2 h2 hok
  · intro c2 h2 hok
    exact refCall_isolates h (RefPQ.copyBuilder h b).2 b (RefPQ.copyBuilder h b).1 _
      (fun q p hq => do_nothing_lists_invariant q p hq)
      rfl rfl hrlt hrget hult huget c2 h2 hok
  · intro terms c2 h2 hok
    exact refCall_isolates h (RefPQ.copyBuilder h b).2 b (RefPQ.copyBuilder h b).1 _
      (fun q p hq => returning_lists_invariant terms q p hq)
      rfl rfl hrlt hrget hult huget c2 h2 hok

/-- Claim C9 witness: the amended claim at a concrete fresh insert builder —
a do_update call on its copy leaves the original's dereferenced state
unchanged. -/
theorem builder_copy_isolation_spec_witness :
    RefPQ.toPure ⟨[[]], [[], [], []], [[], [], [(some "\"x\"", none)]]⟩
        { _insert_table := some "t" } =
      RefPQ.toPure ⟨[[]], [[]], [[]]⟩ { _insert_table := some "t" } :=
  (builder_copy_isolation_spec ⟨[[]], [[]], [[]]⟩ { _insert_table := some "t" }
      (by decide) (by decide) (by decide)).1
    (.str "x") none
    { _insert_table := some "t", retsRef := 2, updatesRef := 2 }
    ⟨[[]], [[], [], []], [[], [], [(some "\"x\"", none)]]⟩
    (by decide)

/-- Claim C5 witness: the single-kind dichotomy of the amended claim at
concrete inputs — a ValueError is captured by err=ValueError, a KeyError
propagates past it. -/
theorem returns_result_capture_spec_witness :
    Rust.returns_result_call (T := Nat)
        (.single .ValueErrorC) (.raises ⟨.ValueErrorC, "bad"⟩) =
      .ok (.Err ⟨.ValueErrorC, "bad"⟩) ∧
    Rust.returns_result_call (T := Nat)
        (.single .ValueErrorC) (.raises ⟨.KeyErrorC, "oops"⟩) =
      .error ⟨.KeyErrorC, "oops"⟩ :=
  ⟨(returns_result_capture_spec Nat .noneCfg 0 ⟨.ValueErrorC, "bad"⟩ .ValueErrorC []).2.1
      (by decide),
   (returns_result_capture_spec Nat .noneCfg 0 ⟨.KeyErrorC, "oops"⟩ .ValueErrorC []).2.2.1
      (by decide)⟩
